import Mathlib

/-!
Verification development for the hostdetail service (`src/index.js`).

The pipeline under study is the IP Resolution & Enrichment Pipeline:
header-precedence IP extraction, cache-aside lookup orchestration over a
reverse-DNS resolver and a remote geolocation HTTP resolver, with a Redis
cache adapter that degrades to a no-op when the store is unavailable.

JavaScript is embedded shallowly:
- JS strings are `String`; `undefined`/`null` are `Option.none`;
  JS string truthiness (`if (s)`) is "present and non-empty".
- fallible `await` calls return `Except`; a `try { .. } catch { .. }`
  is a `match` on the `Except` value.
- The Redis store is a list of `(key, storedString, ttl)` entries, newest
  first; cached strings are modelled by what `JSON.parse` does to them
  (a serialized string, a serialized geolocation object, or garbage).
- Wall-clock time is a `Nat` counter threaded through the handler; each
  awaited resolver advances it by the latency of the behaviour being
  modelled (cache operations are modelled as instantaneous).
- Resolver-call counters instrument the two resolvers, mirroring the
  call-count instrumentation the spec proposes for testing.
-/

namespace HostDetail

/-- Split a character list on a separator character; the result always
has at least one (possibly empty) group, like the JS `split` method. -/
def splitCharsOn (c : Char) : List Char → List (List Char)
  | [] => [[]]
  | a :: rest =>
    match splitCharsOn c rest with
    | [] => if a = c then [[], []] else [[a]]
    | g :: gs => if a = c then [] :: g :: gs else (a :: g) :: gs

/-- JS `value.split(',')` (structural, so that proofs can evaluate it). -/
def jsSplitOnComma (s : String) : List String :=
  (splitCharsOn ',' s.data).map (fun l => ⟨l⟩)

/-- JS `value.trim()`: strip leading and trailing whitespace. -/
def jsTrim (s : String) : String :=
  ⟨((s.data.dropWhile Char.isWhitespace).reverse.dropWhile
      Char.isWhitespace).reverse⟩

/-- JS `value.startsWith("\\")`: does the string begin with a backslash. -/
def jsStartsWithBackslash (s : String) : Bool :=
  match s.data with
  | c :: _ => c = '\\'
  | [] => false

/-- JS `value.slice(1)`: drop the first character. -/
def jsDropOne (s : String) : String := ⟨s.data.drop 1⟩

/-- JS `a || b` where `a` is a possibly-undefined string: `a` is used iff
it is present and non-empty, otherwise `b`. -/
def jsOr (a : Option String) (b : String) : String :=
  match a with
  | some s => if s = "" then b else s
  | none => b

/-- JS `a || b` for two possibly-undefined strings
(models `req.connection?.remoteAddress || req.socket?.remoteAddress`). -/
def jsOrOpt (a b : Option String) : Option String :=
  match a with
  | some s => if s = "" then b else some s
  | none => b

/-- JS truthiness of a possibly-undefined string. -/
def jsTruthy (a : Option String) : Bool :=
  match a with
  | some s => s ≠ ""
  | none => false

/-- The geolocation JSON record returned by the `ip-api.com` backend
(`status`/`message` plus the pass-through fields used by the service).
Latitude and longitude are modelled as integers; the code treats them as
opaque pass-through values. -/
structure GeoData where
  status : String
  message : Option String
  country : String
  countryCode : String
  regionName : String
  city : String
  timezone : String
  isp : String
  lat : Int
  lon : Int
deriving DecidableEq, Repr

/-- A string stored in Redis, classified by what `JSON.parse` does to it:
`jstr s` is `JSON.stringify` of the string `s`, `jgeo g` is
`JSON.stringify` of a geolocation object, and `malformed raw` is any
string `JSON.parse` rejects. -/
inductive Stored where
  | jstr (s : String)
  | jgeo (g : GeoData)
  | malformed (raw : String)
deriving DecidableEq, Repr

/-- A parsed JS value coming out of `JSON.parse` on a cached string. -/
inductive JsVal where
  | vstr (s : String)
  | vgeo (g : GeoData)
deriving DecidableEq, Repr

/-- Model of `JSON.parse` on a stored string: succeeds exactly on well-formed
serializations. -/
def jsonParse : Stored → Option JsVal
  | .jstr s => some (.vstr s)
  | .jgeo g => some (.vgeo g)
  | .malformed _ => none

/-- State and failure modes of the Redis client: readiness flag, the
stored entries (`key, value, ttl`, newest first), and whether the GET or
SETEX commands throw when issued. -/
structure RedisState where
  ready : Bool
  entries : List (String × Stored × Option Int)
  getErr : Bool
  setErr : Bool
deriving DecidableEq, Repr

/-- Look up the newest entry for a key. -/
def redisLookup (es : List (String × Stored × Option Int)) (key : String) :
    Option (Stored × Option Int) :=
  (es.find? (fun e => e.1 == key)).map (fun e => e.2)

/-- The stored string a successful Redis GET returns for a key. -/
def redisGetVal (r : RedisState) (key : String) : Option Stored :=
  (redisLookup r.entries key).map (fun e => e.1)

/-- Model of `redisClient.get(key)`: may throw (modelled by `getErr`), otherwise
returns the stored string or null. -/
def redisGet (r : RedisState) (key : String) : Except String (Option Stored) :=
  if r.getErr then .error "redis GET failed" else .ok (redisGetVal r key)

/-- Model of `redisClient.setEx(key, ttl, value)`: may throw (modelled by
`setErr`), otherwise prepends the entry (newest wins on lookup). -/
def redisSetEx (r : RedisState) (key : String) (ttl : Option Int) (v : Stored) :
    Except String RedisState :=
  if r.setErr then .error "redis SETEX failed"
  else .ok { r with entries := (key, v, ttl) :: r.entries }

/-- Embeds `getFromCache(key)` from `src/index.js`: returns null when the client
is not ready, and catches any command error, downgrading it to null. -/
def getFromCache (r : RedisState) (key : String) : Except String (Option Stored) :=
  match (if !r.ready then Except.ok none else redisGet r key) with
  | .ok v => .ok v
  | .error _ => .ok none

/-- Embeds `setCache(key, value, ttl)` from `src/index.js`: returns false when
the client is not ready, and catches any command error, downgrading it to
false; on success returns true with the updated store. -/
def setCache (r : RedisState) (key : String) (v : Stored) (ttl : Option Int) :
    Except String (Bool × RedisState) :=
  if !r.ready then .ok (false, r)
  else
    match redisSetEx r key ttl v with
    | .ok r2 => .ok (true, r2)
    | .error _ => .ok (false, r)

/-- The number a non-empty run of decimal digit characters denotes. -/
def digitCharsToNat (l : List Char) : Nat :=
  l.foldl (fun n c => n * 10 + (c.toNat - 48)) 0

/-- JS `parseInt` restricted to radix 10: trim, optional sign, then the
longest leading digit run; no digits means NaN, modelled as `none`. -/
def parseIntJs (s : String) : Option Int :=
  match (jsTrim s).data with
  | '-' :: r =>
    (fun digits => if digits = [] then none
      else some (-(digitCharsToNat digits : Int))) (r.takeWhile Char.isDigit)
  | '+' :: r =>
    (fun digits => if digits = [] then none
      else some ((digitCharsToNat digits : Int))) (r.takeWhile Char.isDigit)
  | r =>
    (fun digits => if digits = [] then none
      else some ((digitCharsToNat digits : Int))) (r.takeWhile Char.isDigit)

/-- Embeds `CACHE_TTL.DNS`: `parseInt(process.env.CACHE_TTL_DAYS || '30') * 24 * 60 * 60`,
as a function of the `CACHE_TTL_DAYS` environment variable. -/
def CACHE_TTL_DNS (env : Option String) : Option Int :=
  (parseIntJs (jsOr env "30")).map (fun n => n * 24 * 60 * 60)

/-- Embeds `CACHE_TTL.GEO`: `parseInt(process.env.CACHE_TTL_DAYS || '30') * 24 * 60 * 60`,
as a function of the `CACHE_TTL_DAYS` environment variable. -/
def CACHE_TTL_GEO (env : Option String) : Option Int :=
  (parseIntJs (jsOr env "30")).map (fun n => n * 24 * 60 * 60)

deriving instance DecidableEq for Except

/-- Behaviour of `dns.reverse` for the one IP a request resolves: either
an error or the ordered hostname list, plus the lookup latency. -/
structure DnsBehavior where
  answer : Except String (List String)
  latencyMs : Nat
deriving DecidableEq, Repr

/-- Embeds `reverseDns(ip)` from `src/index.js`: rejects on a DNS error,
otherwise resolves `address[0]` (undefined when the list is empty). -/
def reverseDns (d : DnsBehavior) : Except String (Option String) :=
  match d.answer with
  | .error e => .error e
  | .ok l => .ok l.head?

/-- What the underlying `fetch` of the geolocation call would do if never
aborted: reject without an abort, or deliver a response with a status,
status text and body (`none` body = `response.json()` throws). -/
inductive FetchOutcome where
  | netError (name : String) (msg : String)
  | response (status : Nat) (statusText : String) (body : Option GeoData)
deriving DecidableEq, Repr

/-- Behaviour of the geolocation backend for one call: the eventual fetch
outcome and the latency before it would be delivered. -/
structure GeoBehavior where
  outcome : FetchOutcome
  latencyMs : Nat
deriving DecidableEq, Repr

/-- The distinguishable failures of `getGeolocation`: the 2-second abort,
a non-2xx HTTP status, the backend reporting `status: "fail"`, and a
re-thrown foreign error (network failure or malformed body). -/
inductive GeoErr where
  | timeout
  | httpError (status : Nat) (statusText : String)
  | apiFailure (msg : String)
  | other (name : String) (msg : String)
deriving DecidableEq, Repr

/-- Embeds `getGeolocation(ip)` from `src/index.js`: a 2000 ms abort timer is
armed at call start, so any call whose backend takes longer fails as a
timeout regardless of the eventual answer; otherwise a non-2xx response
throws an HTTP error, a body with `status === 'fail'` throws an
application failure (with the backend message defaulted), any other
fetch/parse error is re-thrown, and a clean 2xx body is returned. -/
def getGeolocation (g : GeoBehavior) : Except GeoErr GeoData :=
  if g.latencyMs > 2000 then .error .timeout
  else
    match g.outcome with
    | .netError n m => .error (.other n m)
    | .response status statusText body =>
      if status < 200 ∨ 299 < status then .error (.httpError status statusText)
      else
        match body with
        | none => .error (.other "SyntaxError" "Unexpected end of JSON input")
        | some d =>
          if d.status = "fail" then
            .error (.apiFailure (jsOr d.message "Geolocation lookup failed"))
          else .ok d

/-- Mutable state threaded through one request: the Redis client state, a
call counter per resolver (instrumentation), and the wall clock. -/
structure St where
  redis : RedisState
  dnsResolverCalls : Nat
  geoResolverCalls : Nat
  clock : Nat
deriving DecidableEq, Repr

/-- The cache-miss tail of `reverseDnsWithCache`: invoke `reverseDns`
(counting the call and its latency), and on a truthy result write it back
with the DNS namespace TTL; a falsy result (undefined or empty) is
returned without caching. -/
def dnsMiss (env : Option String) (d : DnsBehavior) (ip : String) (st : St) :
    Except String (Option JsVal) × St :=
  match reverseDns d with
  | .error e =>
    (.error e, { st with dnsResolverCalls := st.dnsResolverCalls + 1,
                         clock := st.clock + d.latencyMs })
  | .ok none =>
    (.ok none, { st with dnsResolverCalls := st.dnsResolverCalls + 1,
                         clock := st.clock + d.latencyMs })
  | .ok (some s) =>
    if s = "" then
      (.ok (some (.vstr s)), { st with dnsResolverCalls := st.dnsResolverCalls + 1,
                                       clock := st.clock + d.latencyMs })
    else
      match setCache st.redis ("dns:" ++ ip) (.jstr s) (CACHE_TTL_DNS env) with
      | .error e =>
        (.error e, { st with dnsResolverCalls := st.dnsResolverCalls + 1,
                             clock := st.clock + d.latencyMs })
      | .ok br =>
        (.ok (some (.vstr s)), { redis := br.2,
                                 dnsResolverCalls := st.dnsResolverCalls + 1,
                                 geoResolverCalls := st.geoResolverCalls,
                                 clock := st.clock + d.latencyMs })

/-- Embeds `reverseDnsWithCache(ip)` from `src/index.js`: try the cache first; a
truthy cached string that parses is returned as a hit; a parse failure is
caught and falls through to the miss path, as does an absent or falsy
cached value. -/
def reverseDnsWithCache (env : Option String) (d : DnsBehavior) (ip : String)
    (st : St) : Except String (Option JsVal) × St :=
  match getFromCache st.redis ("dns:" ++ ip) with
  | .error e => (.error e, st)
  | .ok none => dnsMiss env d ip st
  | .ok (some stored) =>
    match jsonParse stored with
    | some v => (.ok (some v), st)
    | none => dnsMiss env d ip st

/-- The cache-miss tail of `getGeolocationWithCache`: invoke
`getGeolocation` (counting the call; the abort timer caps the elapsed
time at 2000 ms), and on success write the record back with the GEO
namespace TTL (a geolocation object is always truthy). -/
def geoMiss (env : Option String) (g : GeoBehavior) (ip : String) (st : St) :
    Except GeoErr (Option JsVal) × St :=
  match getGeolocation g with
  | .error e =>
    (.error e, { st with geoResolverCalls := st.geoResolverCalls + 1,
                         clock := st.clock + min g.latencyMs 2000 })
  | .ok d =>
    match setCache st.redis ("geo:" ++ ip) (.jgeo d) (CACHE_TTL_GEO env) with
    | .error e =>
      (.error (.other "Error" e),
       { st with geoResolverCalls := st.geoResolverCalls + 1,
                 clock := st.clock + min g.latencyMs 2000 })
    | .ok br =>
      (.ok (some (.vgeo d)), { redis := br.2,
                               dnsResolverCalls := st.dnsResolverCalls,
                               geoResolverCalls := st.geoResolverCalls + 1,
                               clock := st.clock + min g.latencyMs 2000 })

/-- Embeds `getGeolocationWithCache(ip)` from `src/index.js`: try the cache
first; a truthy cached string that parses is returned as a hit; a parse
failure is caught and falls through to the miss path, as does an absent
or falsy cached value. -/
def getGeolocationWithCache (env : Option String) (g : GeoBehavior) (ip : String)
    (st : St) : Except GeoErr (Option JsVal) × St :=
  match getFromCache st.redis ("geo:" ++ ip) with
  | .error e => (.error (.other "Error" e), st)
  | .ok none => geoMiss env g ip st
  | .ok (some stored) =>
    match jsonParse stored with
    | some v => (.ok (some v), st)
    | none => geoMiss env g ip st

/-- The environment one request runs against: the `CACHE_TTL_DAYS`
variable and the behaviour of the two backends for the request's IP. -/
structure World where
  env : Option String
  dns : DnsBehavior
  geo : GeoBehavior
deriving DecidableEq, Repr

/-- The enrichment portion of the response assembled by the `/` handler:
the two optional enrichment fields and the two measured lookup times. -/
structure EnrichOut where
  reverseLookup : Option JsVal
  geolocation : Option JsVal
  dnsLookupTime : Option Nat
  geoLookupTime : Option Nat
deriving DecidableEq, Repr

/-- The enrichment output when the handler skips enrichment (no IP):
`reverseLookup` stays undefined, `geolocation` stays null, no times. -/
def emptyEnrich : EnrichOut :=
  { reverseLookup := none, geolocation := none,
    dnsLookupTime := none, geoLookupTime := none }

/-- The `if (ip)` body of the `/` handler in `src/index.js`: first the
reverse-DNS lookup inside its own try/catch (a failure leaves the field
undefined), then the geolocation lookup inside its own try/catch (a
failure leaves the field null); each phase measures its own elapsed
time. -/
def enrichCore (w : World) (ip : String) (st : St) : EnrichOut × St :=
  let dnsStart := st.clock
  let p1 := reverseDnsWithCache w.env w.dns ip st
  let rl : Option JsVal := match p1.1 with | .ok v => v | .error _ => none
  let dnsTime := p1.2.clock - dnsStart
  let geoStart := p1.2.clock
  let p2 := getGeolocationWithCache w.env w.geo ip p1.2
  let geo : Option JsVal := match p2.1 with | .ok v => v | .error _ => none
  let geoTime := p2.2.clock - geoStart
  ({ reverseLookup := rl, geolocation := geo,
     dnsLookupTime := some dnsTime, geoLookupTime := some geoTime }, p2.2)

/-- The enrichment step of the `/` handler: enrichment runs only when the
extracted IP is truthy. -/
def enrich (w : World) (ip : Option String) (st : St) : EnrichOut × St :=
  match ip with
  | none => (emptyEnrich, st)
  | some ip0 => if ip0 = "" then (emptyEnrich, st) else enrichCore w ip0 st

/-! ## IP extraction (`/` handler, header-precedence loop) -/

/-- The ordered proxy-header precedence list from `src/index.js`. -/
def ipHeaders : List String :=
  ["x-forwarded-for", "x-real-ip", "x-client-ip", "cf-connecting-ip",
   "x-forwarded", "forwarded-for", "x-cluster-client-ip"]

/-- Model of `req.headers[name]`: first matching entry of the header map. -/
def getHeader (hs : List (String × String)) (name : String) : Option String :=
  (hs.find? (fun e => e.1 == name)).map (fun e => e.2)

/-- The per-header normalization inside the extraction loop:
`x-forwarded-for` takes the first comma-separated entry trimmed;
`x-real-ip` drops one leading backslash when present; every other header
is used verbatim. -/
def normalizeHeader (name value : String) : String :=
  if name = "x-forwarded-for" then jsTrim ((jsSplitOnComma value).headD "")
  else if name = "x-real-ip" then
    (if jsStartsWithBackslash value then jsDropOne value else value)
  else value

/-- The `for (const header of ipHeaders)` loop: the first header whose
value is truthy sets the source and the normalized IP and breaks. -/
def scanIpHeaders (hs : List (String × String)) :
    List String → Option (String × String)
  | [] => none
  | name :: rest =>
    match getHeader hs name with
    | some v => if v = "" then scanIpHeaders hs rest
                else some (normalizeHeader name v, name)
    | none => scanIpHeaders hs rest

/-- The full IP extraction of the `/` handler: run the header loop, then
`if (!ip)` fall back to the connection/socket remote address and
overwrite the source tag with "connection" (this also fires when the
loop produced an empty string). Returns `(ip, ipSource)`. -/
def extractIp (hs : List (String × String)) (connRemote sockRemote : Option String) :
    Option String × Option String :=
  match scanIpHeaders hs ipHeaders with
  | some (ip, src) =>
    if ip = "" then (jsOrOpt connRemote sockRemote, some "connection")
    else (some ip, some src)
  | none => (jsOrOpt connRemote sockRemote, some "connection")

/-- Rendering of claim C2 exactly as worded: the first header of the
precedence list that is PRESENT (even with an empty value) is selected
and its normalized value returned with that header as source; the peer
fallback with source "connection" happens only when no header of the
list is present at all. Used only to compare against `extractIp`. -/
def extractPerClaimC2 (hs : List (String × String))
    (connRemote sockRemote : Option String) : Option String × Option String :=
  match ipHeaders.find? (fun h => (getHeader hs h).isSome) with
  | some h => (some (normalizeHeader h ((getHeader hs h).getD "")), some h)
  | none => (jsOrOpt connRemote sockRemote, some "connection")

/-- Rendering of the amended claim C2: the first header of the list with
a present non-empty value is selected; its value is normalized (the
x-forwarded-for and x-real-ip rules, everything else verbatim); if no
header qualifies, or the selected header's normalized value is empty,
the peer address is used and the source tag is "connection". Written
from the amended wording, to be compared against `extractIp`. -/
def extractPerAmendedC2 (hs : List (String × String))
    (connRemote sockRemote : Option String) : Option String × Option String :=
  match ipHeaders.find? (fun h => jsTruthy (getHeader hs h)) with
  | some h =>
    let nv :=
      if h = "x-real-ip" then
        (if jsStartsWithBackslash ((getHeader hs h).getD "")
         then jsDropOne ((getHeader hs h).getD "")
         else (getHeader hs h).getD "")
      else if h = "x-forwarded-for" then
        (match jsSplitOnComma ((getHeader hs h).getD "") with
         | [] => ""
         | seg :: _ => jsTrim seg)
      else (getHeader hs h).getD ""
    if nv = "" then (jsOrOpt connRemote sockRemote, some "connection")
    else (some nv, some h)
  | none => (jsOrOpt connRemote sockRemote, some "connection")

/-! ## Derived views and helper lemmas -/

/-- What `JSON.parse` makes of the raw entry stored for a key, ignoring
client readiness: `some v` iff an entry is present and parses. -/
def cacheParsedAt (r : RedisState) (k : String) : Option JsVal :=
  match redisGetVal r k with
  | some s => jsonParse s
  | none => none

/-- The value the cache layer can actually serve for a key: a parsed
entry, visible only when the client is ready and GET is not failing. -/
def cacheView (r : RedisState) (k : String) : Option JsVal :=
  if r.ready && !r.getErr then cacheParsedAt r k else none

lemma getFromCache_eq (r : RedisState) (k : String) :
    getFromCache r k =
      .ok (if r.ready && !r.getErr then redisGetVal r k else none) := by
  unfold getFromCache redisGet
  cases hr : r.ready <;> cases hg : r.getErr <;> simp

lemma setCache_eq (r : RedisState) (k : String) (v : Stored) (ttl : Option Int) :
    setCache r k v ttl =
      .ok (if r.ready && !r.setErr
           then (true, { r with entries := (k, v, ttl) :: r.entries })
           else (false, r)) := by
  unfold setCache redisSetEx
  cases hr : r.ready <;> cases hs : r.setErr <;> simp

lemma redisLookup_cons_eq (es : List (String × Stored × Option Int))
    (k : String) (v : Stored) (t : Option Int) :
    redisLookup ((k, v, t) :: es) k = some (v, t) := by
  simp [redisLookup]

lemma redisLookup_cons_ne (es : List (String × Stored × Option Int))
    (k k2 : String) (v : Stored) (t : Option Int) (h : k ≠ k2) :
    redisLookup ((k2, v, t) :: es) k = redisLookup es k := by
  simp [redisLookup, List.find?, show (k2 == k) = false from
    beq_eq_false_iff_ne.2 (Ne.symm h)]

lemma dnsKey_ne_geoKey (ip1 ip2 : String) : "dns:" ++ ip1 ≠ "geo:" ++ ip2 := by
  intro h
  have h2 : ("dns:" ++ ip1).data = ("geo:" ++ ip2).data := by rw [h]
  have h3 : ('d' :: 'n' :: 's' :: ':' :: ip1.data)
      = ('g' :: 'e' :: 'o' :: ':' :: ip2.data) := h2
  simp at h3

lemma reverseDnsWithCache_eq (env : Option String) (d : DnsBehavior)
    (ip : String) (st : St) :
    reverseDnsWithCache env d ip st =
      match cacheView st.redis ("dns:" ++ ip) with
      | some v => (.ok (some v), st)
      | none => dnsMiss env d ip st := by
  unfold reverseDnsWithCache cacheView cacheParsedAt
  rw [getFromCache_eq]
  cases hb : (st.redis.ready && !st.redis.getErr) <;> simp
  cases hv : redisGetVal st.redis ("dns:" ++ ip) <;> simp

lemma getGeolocationWithCache_eq (env : Option String) (g : GeoBehavior)
    (ip : String) (st : St) :
    getGeolocationWithCache env g ip st =
      match cacheView st.redis ("geo:" ++ ip) with
      | some v => (.ok (some v), st)
      | none => geoMiss env g ip st := by
  unfold getGeolocationWithCache cacheView cacheParsedAt
  rw [getFromCache_eq]
  cases hb : (st.redis.ready && !st.redis.getErr) <;> simp
  cases hv : redisGetVal st.redis ("geo:" ++ ip) <;> simp

lemma dnsMiss_success (env : Option String) (d : DnsBehavior) (ip : String)
    (st : St) (h : String) (t : List String)
    (ha : d.answer = .ok (h :: t)) (hh : h ≠ "")
    (hr : st.redis.ready = true) (hs : st.redis.setErr = false) :
    dnsMiss env d ip st =
      (.ok (some (.vstr h)),
       { redis := { st.redis with
           entries := ("dns:" ++ ip, .jstr h, CACHE_TTL_DNS env) :: st.redis.entries },
         dnsResolverCalls := st.dnsResolverCalls + 1,
         geoResolverCalls := st.geoResolverCalls,
         clock := st.clock + d.latencyMs }) := by
  unfold dnsMiss reverseDns
  rw [ha]
  simp only [List.head?]
  rw [setCache_eq]
  simp [hh, hr, hs]

lemma dnsMiss_error (env : Option String) (d : DnsBehavior) (ip : String)
    (st : St) (e : String) (ha : d.answer = .error e) :
    dnsMiss env d ip st =
      (.error e,
       { st with dnsResolverCalls := st.dnsResolverCalls + 1,
                 clock := st.clock + d.latencyMs }) := by
  unfold dnsMiss reverseDns
  rw [ha]

lemma getGeolocation_timeout (g : GeoBehavior) (h : g.latencyMs > 2000) :
    getGeolocation g = .error .timeout := by
  unfold getGeolocation
  simp [h]

lemma getGeolocation_success (g : GeoBehavior) (stat : Nat) (stx : String)
    (gd : GeoData) (hl : g.latencyMs ≤ 2000)
    (ho : g.outcome = .response stat stx (some gd))
    (h2 : 200 ≤ stat) (h3 : stat ≤ 299) (hf : gd.status ≠ "fail") :
    getGeolocation g = .ok gd := by
  unfold getGeolocation
  rw [ho]
  have hnl : ¬ g.latencyMs > 2000 := by omega
  have hok : ¬ (stat < 200 ∨ 299 < stat) := by omega
  simp [hnl, hok, hf]

lemma geoMiss_success (env : Option String) (g : GeoBehavior) (ip : String)
    (st : St) (gd : GeoData) (hgeo : getGeolocation g = .ok gd)
    (hr : st.redis.ready = true) (hs : st.redis.setErr = false) :
    geoMiss env g ip st =
      (.ok (some (.vgeo gd)),
       { redis := { st.redis with
           entries := ("geo:" ++ ip, .jgeo gd, CACHE_TTL_GEO env) :: st.redis.entries },
         dnsResolverCalls := st.dnsResolverCalls,
         geoResolverCalls := st.geoResolverCalls + 1,
         clock := st.clock + min g.latencyMs 2000 }) := by
  unfold geoMiss
  rw [hgeo]
  simp [setCache_eq, hr, hs]

lemma geoMiss_error (env : Option String) (g : GeoBehavior) (ip : String)
    (st : St) (e : GeoErr) (hgeo : getGeolocation g = .error e) :
    geoMiss env g ip st =
      (.error e,
       { st with geoResolverCalls := st.geoResolverCalls + 1,
                 clock := st.clock + min g.latencyMs 2000 }) := by
  unfold geoMiss
  rw [hgeo]

lemma reverseDnsWithCache_hit (env : Option String) (d : DnsBehavior)
    (ip : String) (st : St) (v : JsVal)
    (hr : st.redis.ready = true) (hg : st.redis.getErr = false)
    (hc : cacheParsedAt st.redis ("dns:" ++ ip) = some v) :
    reverseDnsWithCache env d ip st = (.ok (some v), st) := by
  rw [reverseDnsWithCache_eq]
  unfold cacheView
  rw [hr, hg, hc]
  simp

lemma getGeolocationWithCache_hit (env : Option String) (g : GeoBehavior)
    (ip : String) (st : St) (v : JsVal)
    (hr : st.redis.ready = true) (hg : st.redis.getErr = false)
    (hc : cacheParsedAt st.redis ("geo:" ++ ip) = some v) :
    getGeolocationWithCache env g ip st = (.ok (some v), st) := by
  rw [getGeolocationWithCache_eq]
  unfold cacheView
  rw [hr, hg, hc]
  simp

lemma cacheParsedAt_mk (rdy ge se : Bool)
    (es : List (String × Stored × Option Int)) (k : String) (v : Stored)
    (t : Option Int) :
    cacheParsedAt ⟨rdy, (k, v, t) :: es, ge, se⟩ k = jsonParse v := by
  unfold cacheParsedAt redisGetVal
  rw [show (⟨rdy, (k, v, t) :: es, ge, se⟩ : RedisState).entries
      = (k, v, t) :: es from rfl, redisLookup_cons_eq]
  rfl

/-- What `reverseDnsWithCache` guarantees when the cache is fully working
and the DNS backend answers with a non-empty first hostname: it returns
some parsed value and leaves the store serving that same value under the
DNS key, without touching any other key or the geo call counter. -/
lemma reverseDnsWithCache_post (env : Option String) (d : DnsBehavior)
    (ip : String) (st : St) (h : String) (t : List String)
    (hr : st.redis.ready = true) (hg : st.redis.getErr = false)
    (hs : st.redis.setErr = false)
    (ha : d.answer = .ok (h :: t)) (hh : h ≠ "") :
    ∃ v st2, reverseDnsWithCache env d ip st = (.ok (some v), st2) ∧
      st2.redis.ready = true ∧ st2.redis.getErr = false ∧
      st2.redis.setErr = false ∧
      cacheParsedAt st2.redis ("dns:" ++ ip) = some v ∧
      (∀ k, k ≠ "dns:" ++ ip → redisGetVal st2.redis k = redisGetVal st.redis k) ∧
      st2.geoResolverCalls = st.geoResolverCalls := by
  rw [reverseDnsWithCache_eq]
  cases hv : cacheView st.redis ("dns:" ++ ip) with
  | some v =>
    refine ⟨v, st, rfl, hr, hg, hs, ?_, fun k _ => rfl, rfl⟩
    unfold cacheView at hv
    rw [hr, hg] at hv
    simpa using hv
  | none =>
    rw [dnsMiss_success env d ip st h t ha hh hr hs]
    refine ⟨.vstr h, _, rfl, hr, hg, hs, ?_, ?_, rfl⟩
    · exact cacheParsedAt_mk _ _ _ _ _ _ _
    · intro k hk
      unfold redisGetVal
      rw [show ({ st.redis with entries :=
              ("dns:" ++ ip, Stored.jstr h, CACHE_TTL_DNS env) :: st.redis.entries
            : RedisState }).entries =
          ("dns:" ++ ip, Stored.jstr h, CACHE_TTL_DNS env) :: st.redis.entries from rfl]
      rw [redisLookup_cons_ne _ _ _ _ _ hk]

/-- What `getGeolocationWithCache` guarantees when the cache is fully
working and the geolocation call succeeds: it returns some parsed value
and leaves the store serving that same value under the geo key, without
touching any other key or the DNS call counter. -/
lemma getGeolocationWithCache_post (env : Option String) (g : GeoBehavior)
    (ip : String) (st : St) (gd : GeoData)
    (hr : st.redis.ready = true) (hg : st.redis.getErr = false)
    (hs : st.redis.setErr = false)
    (hgeo : getGeolocation g = .ok gd) :
    ∃ v st2, getGeolocationWithCache env g ip st = (.ok (some v), st2) ∧
      st2.redis.ready = true ∧ st2.redis.getErr = false ∧
      st2.redis.setErr = false ∧
      cacheParsedAt st2.redis ("geo:" ++ ip) = some v ∧
      (∀ k, k ≠ "geo:" ++ ip → redisGetVal st2.redis k = redisGetVal st.redis k) ∧
      st2.dnsResolverCalls = st.dnsResolverCalls := by
  rw [getGeolocationWithCache_eq]
  cases hv : cacheView st.redis ("geo:" ++ ip) with
  | some v =>
    refine ⟨v, st, rfl, hr, hg, hs, ?_, fun k _ => rfl, rfl⟩
    unfold cacheView at hv
    rw [hr, hg] at hv
    simpa using hv
  | none =>
    rw [geoMiss_success env g ip st gd hgeo hr hs]
    refine ⟨.vgeo gd, _, rfl, hr, hg, hs, ?_, ?_, rfl⟩
    · exact cacheParsedAt_mk _ _ _ _ _ _ _
    · intro k hk
      unfold redisGetVal
      rw [show ({ st.redis with entries :=
              ("geo:" ++ ip, Stored.jgeo gd, CACHE_TTL_GEO env) :: st.redis.entries
            : RedisState }).entries =
          ("geo:" ++ ip, Stored.jgeo gd, CACHE_TTL_GEO env) :: st.redis.entries from rfl]
      rw [redisLookup_cons_ne _ _ _ _ _ hk]

lemma dnsMiss_clock (env : Option String) (d : DnsBehavior) (ip : String)
    (st : St) : (dnsMiss env d ip st).2.clock = st.clock + d.latencyMs := by
  unfold dnsMiss reverseDns
  cases ha : d.answer with
  | error e => rfl
  | ok l =>
    cases l with
    | nil => rfl
    | cons s t => by_cases hs : s = "" <;> simp [hs, setCache_eq]

lemma geoMiss_clock (env : Option String) (g : GeoBehavior) (ip : String)
    (st : St) : (geoMiss env g ip st).2.clock = st.clock + min g.latencyMs 2000 := by
  unfold geoMiss
  cases hgr : getGeolocation g with
  | error e => rfl
  | ok gd => simp [setCache_eq]

lemma reverseDnsWithCache_clock (env : Option String) (d : DnsBehavior)
    (ip : String) (st : St) :
    ∃ dt, (reverseDnsWithCache env d ip st).2.clock = st.clock + dt := by
  rw [reverseDnsWithCache_eq]
  cases hv : cacheView st.redis ("dns:" ++ ip) with
  | some v => exact ⟨0, rfl⟩
  | none => exact ⟨d.latencyMs, dnsMiss_clock env d ip st⟩

lemma getGeolocationWithCache_clock (env : Option String) (g : GeoBehavior)
    (ip : String) (st : St) :
    ∃ dt, (getGeolocationWithCache env g ip st).2.clock = st.clock + dt := by
  rw [getGeolocationWithCache_eq]
  cases hv : cacheView st.redis ("geo:" ++ ip) with
  | some v => exact ⟨0, rfl⟩
  | none => exact ⟨min g.latencyMs 2000, geoMiss_clock env g ip st⟩

lemma dnsMiss_fst_eq (env : Option String) (d : DnsBehavior) (ip : String)
    (st : St) :
    (dnsMiss env d ip st).1 =
      match reverseDns d with
      | .error e => .error e
      | .ok none => .ok none
      | .ok (some s) => .ok (some (.vstr s)) := by
  unfold dnsMiss
  cases hr : reverseDns d with
  | error e => rfl
  | ok o =>
    cases o with
    | none => rfl
    | some s => by_cases hs : s = "" <;> simp [hs, setCache_eq]

lemma geoMiss_fst_eq (env : Option String) (g : GeoBehavior) (ip : String)
    (st : St) :
    (geoMiss env g ip st).1 =
      match getGeolocation g with
      | .error e => .error e
      | .ok gd => .ok (some (.vgeo gd)) := by
  unfold geoMiss
  cases hr : getGeolocation g with
  | error e => rfl
  | ok gd => simp [setCache_eq]

lemma dnsMiss_flags (env : Option String) (d : DnsBehavior) (ip : String)
    (st : St) :
    (dnsMiss env d ip st).2.redis.ready = st.redis.ready
    ∧ (dnsMiss env d ip st).2.redis.getErr = st.redis.getErr
    ∧ (dnsMiss env d ip st).2.redis.setErr = st.redis.setErr := by
  unfold dnsMiss
  cases hr : reverseDns d with
  | error e => exact ⟨rfl, rfl, rfl⟩
  | ok o =>
    cases o with
    | none => exact ⟨rfl, rfl, rfl⟩
    | some s =>
      by_cases hs : s = "" <;> simp [hs, setCache_eq] <;>
        split_ifs <;> exact ⟨rfl, rfl, rfl⟩

lemma geoMiss_flags (env : Option String) (g : GeoBehavior) (ip : String)
    (st : St) :
    (geoMiss env g ip st).2.redis.ready = st.redis.ready
    ∧ (geoMiss env g ip st).2.redis.getErr = st.redis.getErr
    ∧ (geoMiss env g ip st).2.redis.setErr = st.redis.setErr := by
  unfold geoMiss
  cases hr : getGeolocation g with
  | error e => exact ⟨rfl, rfl, rfl⟩
  | ok gd =>
    simp [setCache_eq]
    split_ifs <;> exact ⟨rfl, rfl, rfl⟩

lemma dnsMiss_getVal_other (env : Option String) (d : DnsBehavior) (ip : String)
    (st : St) (k : String) (hk : k ≠ "dns:" ++ ip) :
    redisGetVal (dnsMiss env d ip st).2.redis k = redisGetVal st.redis k := by
  unfold dnsMiss
  cases hr : reverseDns d with
  | error e => rfl
  | ok o =>
    cases o with
    | none => rfl
    | some s =>
      by_cases hs : s = "" <;> simp [hs, setCache_eq] <;>
        split_ifs <;> simp [redisGetVal, redisLookup_cons_ne _ _ _ _ _ hk]

lemma geoMiss_getVal_other (env : Option String) (g : GeoBehavior) (ip : String)
    (st : St) (k : String) (hk : k ≠ "geo:" ++ ip) :
    redisGetVal (geoMiss env g ip st).2.redis k = redisGetVal st.redis k := by
  unfold geoMiss
  cases hr : getGeolocation g with
  | error e => rfl
  | ok gd =>
    simp [setCache_eq]
    split_ifs <;> simp [redisGetVal, redisLookup_cons_ne _ _ _ _ _ hk]

lemma cacheParsedAt_of_getVal_none (r : RedisState) (k : String)
    (h : redisGetVal r k = none) : cacheParsedAt r k = none := by
  unfold cacheParsedAt
  rw [h]

lemma scanIpHeaders_eq_find (hs : List (String × String)) (L : List String) :
    scanIpHeaders hs L =
      (L.find? (fun h => jsTruthy (getHeader hs h))).map
        (fun h => (normalizeHeader h ((getHeader hs h).getD ""), h)) := by
  induction L with
  | nil => rfl
  | cons a L ih =>
    unfold scanIpHeaders
    cases hv : getHeader hs a with
    | none => simp [List.find?, jsTruthy, hv, ih]
    | some v =>
      by_cases he : v = ""
      · subst he
        simp [List.find?, jsTruthy, hv, ih]
      · simp [List.find?, jsTruthy, hv, he]

lemma normalizeHeader_cases (h v : String) :
    normalizeHeader h v =
      (if h = "x-real-ip" then
        (if jsStartsWithBackslash v then jsDropOne v else v)
      else if h = "x-forwarded-for" then
        (match jsSplitOnComma v with
         | [] => ""
         | seg :: _ => jsTrim seg)
      else v) := by
  unfold normalizeHeader
  by_cases h1 : h = "x-forwarded-for"
  · subst h1
    rw [if_pos rfl, if_neg (by decide), if_pos rfl]
    cases hsp : jsSplitOnComma v with
    | nil => rfl
    | cons a l => rfl
  · by_cases h2 : h = "x-real-ip" <;> simp [h1, h2]

/-! ## Concrete fixtures used by witnesses and counterexamples -/

/-- A successful geolocation record fixture. -/
def gdOK : GeoData :=
  ⟨"success", none, "France", "FR", "Ile-de-France", "Paris",
   "Europe/Paris", "Orange", 48, 2⟩

/-- Request state with a ready, empty, error-free cache. -/
def stReady : St := ⟨⟨true, [], false, false⟩, 0, 0, 0⟩

/-- Request state whose cache store never became ready. -/
def stDown : St := ⟨⟨false, [], false, false⟩, 0, 0, 0⟩

/-- DNS backend answering one hostname after 5 ms. -/
def dnsOK : DnsBehavior := ⟨.ok ["host.example"], 5⟩

/-- DNS backend rejecting after 3 ms. -/
def dnsBad : DnsBehavior := ⟨.error "ENOTFOUND", 3⟩

/-- Geolocation backend answering a clean 200 body after 7 ms. -/
def geoOK : GeoBehavior := ⟨.response 200 "OK" (some gdOK), 7⟩

/-- Geolocation backend whose answer would only arrive after 2500 ms. -/
def geoSlow : GeoBehavior := ⟨.response 200 "OK" (some gdOK), 2500⟩

/-- Healthy world: default TTL env, both backends succeed. -/
def wOK : World := ⟨none, dnsOK, geoOK⟩

/-- Failing world: DNS rejects and geolocation exceeds the deadline. -/
def wBad : World := ⟨none, dnsBad, geoSlow⟩

/-! ## Claim theorems -/

/-- C2 counterexample: with `x-forwarded-for` present but empty and
`x-real-ip` present as "2.2.2.2", the extractor returns the
lower-precedence `x-real-ip` value, while the claim as stated (first
PRESENT header, normalized) requires the empty normalized
`x-forwarded-for` value with that header as source. -/
theorem c2_counterexample :
    extractIp [("x-forwarded-for", ""), ("x-real-ip", "2.2.2.2")]
        (some "9.9.9.9") none
      = (some "2.2.2.2", some "x-real-ip")
    ∧ extractPerClaimC2 [("x-forwarded-for", ""), ("x-real-ip", "2.2.2.2")]
        (some "9.9.9.9") none
      = (some "", some "x-forwarded-for")
    ∧ extractIp [("x-forwarded-for", ""), ("x-real-ip", "2.2.2.2")]
        (some "9.9.9.9") none
      ≠ extractPerClaimC2 [("x-forwarded-for", ""), ("x-real-ip", "2.2.2.2")]
        (some "9.9.9.9") none := by
  refine ⟨rfl, rfl, ?_⟩
  decide

/-- C2 (amended): the extractor returns the normalized value of the first
header of the fixed precedence list that is present with a non-empty
value (x-forwarded-for: first comma-separated segment trimmed; x-real-ip:
exactly one leading backslash stripped, and for no other header; all
other headers verbatim), never a lower-precedence header's value; when no
header is present with a non-empty value, or the selected header's
normalized value is the empty string, it returns the peer socket address
with source tag "connection". -/
theorem c2_first_nonempty_header (hs : List (String × String))
    (connRemote sockRemote : Option String) :
    extractIp hs connRemote sockRemote
      = extractPerAmendedC2 hs connRemote sockRemote := by
  unfold extractIp extractPerAmendedC2
  rw [scanIpHeaders_eq_find]
  cases hf : ipHeaders.find? (fun h => jsTruthy (getHeader hs h)) with
  | none => rfl
  | some h =>
    simp only [Option.map_some']
    rw [normalizeHeader_cases]

/-- C10: a present-but-empty header value is treated exactly like an
absent header: when every header of the precedence list is absent or
empty, and likewise when the first (hence highest-precedence) non-empty
header is x-forwarded-for with a first comma-separated segment trimming
to the empty string, the extracted IP falls back to the peer socket
address and the source tag is overwritten to "connection". -/
theorem c10_empty_header_fallback (hs : List (String × String))
    (connRemote sockRemote : Option String) (v : String) :
    ((∀ h, h ∈ ipHeaders → getHeader hs h = none ∨ getHeader hs h = some "") →
      extractIp hs connRemote sockRemote
        = (jsOrOpt connRemote sockRemote, some "connection"))
    ∧ (getHeader hs "x-forwarded-for" = some v → v ≠ "" →
        jsTrim ((jsSplitOnComma v).headD "") = "" →
        extractIp hs connRemote sockRemote
          = (jsOrOpt connRemote sockRemote, some "connection")) := by
  constructor
  · intro hall
    unfold extractIp
    rw [scanIpHeaders_eq_find]
    rw [List.find?_eq_none.2 ?_]
    · rfl
    · intro h hmem
      rcases hall h hmem with h0 | h0 <;> simp [jsTruthy, h0]
  · intro hv hne htrim
    unfold extractIp
    rw [scanIpHeaders_eq_find]
    rw [show ipHeaders = "x-forwarded-for" ::
        ["x-real-ip", "x-client-ip", "cf-connecting-ip", "x-forwarded",
         "forwarded-for", "x-cluster-client-ip"] from rfl]
    rw [List.find?_cons_of_pos _ (by simp [jsTruthy, hv, hne])]
    simp only [Option.map_some']
    rw [show normalizeHeader "x-forwarded-for"
        ((getHeader hs "x-forwarded-for").getD "")
        = jsTrim ((jsSplitOnComma
            ((getHeader hs "x-forwarded-for").getD "")).headD "") from rfl]
    rw [hv]
    simp only [Option.getD_some]
    rw [htrim, if_pos rfl]

/-- C10 witness: a request whose only header is an empty `x-client-ip`
falls back to the peer address, and so does a request whose
`x-forwarded-for` first segment is pure whitespace. -/
theorem c10_empty_header_fallback_witness :
    extractIp [("x-client-ip", "")] (some "10.0.0.5") none
      = (jsOrOpt (some "10.0.0.5") none, some "connection")
    ∧ extractIp [("x-forwarded-for", " ,8.8.8.8")] (some "10.0.0.5") none
      = (jsOrOpt (some "10.0.0.5") none, some "connection")
    ∧ jsOrOpt (some "10.0.0.5") none = some "10.0.0.5" := by
  refine ⟨?_, ?_, by decide⟩
  · exact (c10_empty_header_fallback [("x-client-ip", "")]
      (some "10.0.0.5") none "").1 (by decide)
  · exact (c10_empty_header_fallback [("x-forwarded-for", " ,8.8.8.8")]
      (some "10.0.0.5") none " ,8.8.8.8").2 (by decide) (by decide) (by decide)

/-- The TTL-independence property claim C9 asserts: some setting of the
`CACHE_TTL_DAYS` environment would give the DNS and geolocation
namespaces different TTLs. -/
def ttlIndependentlyConfigurable : Prop :=
  ∃ env : Option String, CACHE_TTL_DNS env ≠ CACHE_TTL_GEO env

/-- C9 counterexample: both namespaces read the same `CACHE_TTL_DAYS`
environment variable, so no environment can make the DNS TTL differ from
the geolocation TTL; e.g. setting it to 7 sets both to 604800 seconds. -/
theorem c9_counterexample :
    CACHE_TTL_DNS (some "7") = some 604800
    ∧ CACHE_TTL_GEO (some "7") = some 604800
    ∧ ¬ ttlIndependentlyConfigurable := by
  refine ⟨by decide, by decide, ?_⟩
  rintro ⟨env, h⟩
  exact h rfl

/-- C9 (amended): on resolver success with a working cache, the
write-back stores the entry under the resolver's namespace TTL; both
namespace TTLs are computed from the single `CACHE_TTL_DAYS` variable
(so they always coincide and cannot be set independently), and both
default to 30 days = 2592000 seconds. -/
theorem c9_ttl_writeback (env : Option String) (d : DnsBehavior)
    (g : GeoBehavior) (ip : String) (st : St) (h : String) (t : List String)
    (gd : GeoData)
    (hr : st.redis.ready = true) (hg : st.redis.getErr = false)
    (hs : st.redis.setErr = false)
    (hvd : cacheView st.redis ("dns:" ++ ip) = none)
    (hvg : cacheView st.redis ("geo:" ++ ip) = none)
    (ha : d.answer = .ok (h :: t)) (hh : h ≠ "")
    (hgeo : getGeolocation g = .ok gd) :
    redisLookup (reverseDnsWithCache env d ip st).2.redis.entries ("dns:" ++ ip)
      = some (.jstr h, CACHE_TTL_DNS env)
    ∧ redisLookup (getGeolocationWithCache env g ip st).2.redis.entries
        ("geo:" ++ ip)
      = some (.jgeo gd, CACHE_TTL_GEO env)
    ∧ CACHE_TTL_DNS none = some 2592000
    ∧ (∀ e2, CACHE_TTL_DNS e2 = CACHE_TTL_GEO e2) := by
  refine ⟨?_, ?_, by decide, fun _ => rfl⟩
  · rw [reverseDnsWithCache_eq, hvd,
      dnsMiss_success env d ip st h t ha hh hr hs]
    exact redisLookup_cons_eq _ _ _ _
  · rw [getGeolocationWithCache_eq, hvg,
      geoMiss_success env g ip st gd hgeo hr hs]
    exact redisLookup_cons_eq _ _ _ _

/-- C9 amended-claim witness at concrete inputs: with `CACHE_TTL_DAYS=7`
and an empty working cache, both resolvers' write-backs store their
entries with TTL 604800 seconds. -/
theorem c9_ttl_writeback_witness :
    redisLookup (reverseDnsWithCache (some "7") dnsOK "1.2.3.4" stReady).2.redis.entries
        ("dns:" ++ "1.2.3.4")
      = some (.jstr "host.example", CACHE_TTL_DNS (some "7"))
    ∧ redisLookup (getGeolocationWithCache (some "7") geoOK "1.2.3.4" stReady).2.redis.entries
        ("geo:" ++ "1.2.3.4")
      = some (.jgeo gdOK, CACHE_TTL_GEO (some "7")) := by
  have h := c9_ttl_writeback (some "7") dnsOK geoOK "1.2.3.4" stReady
    "host.example" [] gdOK rfl rfl rfl (by decide) (by decide) rfl
    (by decide) (by decide)
  exact ⟨h.1, h.2.1⟩

/-- When both request states are forced onto the miss path for both
namespaces and start at the same clock, the enrichment output (fields and
timings) is identical: the output of a miss-path enrichment does not
depend on the cache state. -/
lemma enrichCore_out_eq (w : World) (ip0 : String) (sA sB : St)
    (hclk : sA.clock = sB.clock)
    (hdA : cacheView sA.redis ("dns:" ++ ip0) = none)
    (hdB : cacheView sB.redis ("dns:" ++ ip0) = none)
    (hgA : cacheView (dnsMiss w.env w.dns ip0 sA).2.redis ("geo:" ++ ip0) = none)
    (hgB : cacheView (dnsMiss w.env w.dns ip0 sB).2.redis ("geo:" ++ ip0) = none) :
    (enrichCore w ip0 sA).1 = (enrichCore w ip0 sB).1 := by
  have e1 : reverseDnsWithCache w.env w.dns ip0 sA = dnsMiss w.env w.dns ip0 sA := by
    rw [reverseDnsWithCache_eq, hdA]
  have e2 : reverseDnsWithCache w.env w.dns ip0 sB = dnsMiss w.env w.dns ip0 sB := by
    rw [reverseDnsWithCache_eq, hdB]
  have e3 : getGeolocationWithCache w.env w.geo ip0 (dnsMiss w.env w.dns ip0 sA).2
      = geoMiss w.env w.geo ip0 (dnsMiss w.env w.dns ip0 sA).2 := by
    rw [getGeolocationWithCache_eq, hgA]
  have e4 : getGeolocationWithCache w.env w.geo ip0 (dnsMiss w.env w.dns ip0 sB).2
      = geoMiss w.env w.geo ip0 (dnsMiss w.env w.dns ip0 sB).2 := by
    rw [getGeolocationWithCache_eq, hgB]
  simp only [enrichCore, e1, e2, e3, e4]
  simp only [dnsMiss_fst_eq, geoMiss_fst_eq, dnsMiss_clock, geoMiss_clock, hclk]

/-- C4: the cache adapter never raises: `get` returns `.ok` always and in
particular null whenever the store is not ready or the GET command
fails; `set` returns `.ok` always and in particular false (with the
store unchanged) whenever the store is not ready or the SETEX command
fails; consequently a request computes the same enrichment output with a
never-ready store as with a ready empty one. -/
theorem c4_cache_adapter_contract (r : RedisState) (key : String) (v : Stored)
    (ttl : Option Int) (w : World) (ip : Option String)
    (es : List (String × Stored × Option Int)) (ge se : Bool)
    (c1 c2 clk : Nat) :
    (∃ o, getFromCache r key = Except.ok o)
    ∧ (r.ready = false → getFromCache r key = .ok none)
    ∧ (r.getErr = true → getFromCache r key = .ok none)
    ∧ (∃ b r2, setCache r key v ttl = .ok (b, r2))
    ∧ (r.ready = false → setCache r key v ttl = .ok (false, r))
    ∧ (r.setErr = true → setCache r key v ttl = .ok (false, r))
    ∧ (enrich w ip ⟨⟨false, es, ge, se⟩, c1, c2, clk⟩).1
        = (enrich w ip ⟨⟨true, [], false, false⟩, c1, c2, clk⟩).1 := by
  refine ⟨⟨_, getFromCache_eq r key⟩, ?_, ?_, ?_, ?_, ?_, ?_⟩
  · intro h
    rw [getFromCache_eq]
    simp [h]
  · intro h
    rw [getFromCache_eq]
    simp [h]
  · rw [setCache_eq]
    split_ifs
    · exact ⟨true, _, rfl⟩
    · exact ⟨false, r, rfl⟩
  · intro h
    rw [setCache_eq]
    simp [h]
  · intro h
    rw [setCache_eq]
    simp [h]
  · cases ip with
    | none => rfl
    | some ip0 =>
      by_cases hip : ip0 = ""
      · simp [enrich, hip]
      · simp only [enrich, if_neg hip]
        apply enrichCore_out_eq
        · rfl
        · rfl
        · rfl
        · unfold cacheView
          rw [(dnsMiss_flags w.env w.dns ip0 ⟨⟨false, es, ge, se⟩, c1, c2, clk⟩).1]
          simp
        · unfold cacheView
          rw [cacheParsedAt_of_getVal_none _ _ (by
            rw [dnsMiss_getVal_other _ _ _ _ _
              (Ne.symm (dnsKey_ne_geoKey ip0 ip0))]
            rfl)]
          simp

/-- C4 witness: at concrete inputs, a not-ready store serves null, a
not-ready set reports false, and a healthy request computes the same
output with a never-ready store as with a ready empty one. -/
theorem c4_cache_adapter_contract_witness :
    getFromCache ⟨false, [], false, false⟩ "dns:1.2.3.4" = .ok none
    ∧ setCache ⟨false, [], false, false⟩ "dns:1.2.3.4" (.jstr "host.example") none
        = .ok (false, ⟨false, [], false, false⟩)
    ∧ (enrich wOK (some "1.2.3.4") stDown).1
        = (enrich wOK (some "1.2.3.4") stReady).1 := by
  have h := c4_cache_adapter_contract ⟨false, [], false, false⟩ "dns:1.2.3.4"
    (.jstr "host.example") none wOK (some "1.2.3.4") [] false false 0 0 0
  exact ⟨h.2.1 rfl, h.2.2.2.2.1 rfl, h.2.2.2.2.2.2⟩

lemma cacheParsedAt_eq_of_getVal (r1 r2 : RedisState) (k : String)
    (h : redisGetVal r1 k = redisGetVal r2 k) :
    cacheParsedAt r1 k = cacheParsedAt r2 k := by
  unfold cacheParsedAt
  rw [h]

lemma redisGetVal_mk_cons (rdy ge se : Bool)
    (es : List (String × Stored × Option Int)) (k : String) (v : Stored)
    (t : Option Int) :
    redisGetVal ⟨rdy, (k, v, t) :: es, ge, se⟩ k = some v := by
  unfold redisGetVal
  rw [show (⟨rdy, (k, v, t) :: es, ge, se⟩ : RedisState).entries
      = (k, v, t) :: es from rfl, redisLookup_cons_eq]
  rfl

/-- A backend record reporting failure, with a message. -/
def gdFail : GeoData :=
  ⟨"fail", some "invalid query", "", "", "", "", "", "", 0, 0⟩

/-- Geolocation backend answering a 404 after 7 ms. -/
def geoHttp404 : GeoBehavior := ⟨.response 404 "Not Found" (some gdOK), 7⟩

/-- Geolocation backend answering 200 with a status-fail body after 7 ms. -/
def geoApiFail : GeoBehavior := ⟨.response 200 "OK" (some gdFail), 7⟩

/-- World with a healthy DNS backend and a too-slow geolocation backend. -/
def wMix : World := ⟨none, dnsOK, geoSlow⟩

/-- Request state whose working cache holds undeserializable strings
under both namespaces for the request IP. -/
def stMal : St :=
  ⟨⟨true, [("dns:1.2.3.4", .malformed "not json", none),
           ("geo:1.2.3.4", .malformed "also not json", none)],
    false, false⟩, 0, 0, 0⟩

/-- C3: enrichment never raises out of its own boundary: a failure
anywhere in the reverse-DNS chain leaves only the `reverseLookup` field
absent, a failure anywhere in the geolocation chain leaves only the
`geolocation` field absent, a null IP skips enrichment and still yields
the empty enrichment result, and when both chains fail the handler still
returns a complete result with both fields absent — partial or empty
enrichment is a valid, complete result. -/
theorem c3_enrichment_never_raises (w : World) (ip0 : String) (st : St) :
    (∀ e, (reverseDnsWithCache w.env w.dns ip0 st).1 = .error e →
      (enrichCore w ip0 st).1.reverseLookup = none)
    ∧ (∀ e, (getGeolocationWithCache w.env w.geo ip0
          (reverseDnsWithCache w.env w.dns ip0 st).2).1 = .error e →
      (enrichCore w ip0 st).1.geolocation = none)
    ∧ enrich w none st = (emptyEnrich, st)
    ∧ (∀ eD eG, (reverseDnsWithCache w.env w.dns ip0 st).1 = .error eD →
        (getGeolocationWithCache w.env w.geo ip0
          (reverseDnsWithCache w.env w.dns ip0 st).2).1 = .error eG →
        (enrichCore w ip0 st).1.reverseLookup = none
        ∧ (enrichCore w ip0 st).1.geolocation = none) := by
  refine ⟨?_, ?_, rfl, ?_⟩
  · intro e he
    simp [enrichCore, he]
  · intro e he
    simp [enrichCore, he]
  · intro eD eG hd hg
    exact ⟨by simp [enrichCore, hd], by simp [enrichCore, hg]⟩

/-- C3 witness: with a never-ready cache, a rejecting DNS backend and a
geolocation backend beyond the deadline, the request still completes
with both enrichment fields absent. -/
theorem c3_enrichment_never_raises_witness :
    (enrichCore wBad "1.2.3.4" stDown).1.reverseLookup = none
    ∧ (enrichCore wBad "1.2.3.4" stDown).1.geolocation = none := by
  have h := c3_enrichment_never_raises wBad "1.2.3.4" stDown
  exact ⟨h.1 "ENOTFOUND" (by decide), h.2.1 .timeout (by decide)⟩

/-- C5: the geolocation resolver is bounded by a hard 2-second deadline
armed at call start: exceeding it is a timeout failure regardless of the
backend's eventual answer, and the time charged to the caller never
exceeds 2000 ms; on a backend delivering a parseable JSON response
within the deadline, a non-2xx status is a transport-level HTTP error, a
2xx body whose status field is "fail" is an application-level failure
despite transport success, and in every non-failure case the backend's
record is returned — exactly three distinguishable failure shapes. -/
theorem c5_geolocation_contract (g : GeoBehavior) (stat : Nat) (stx : String)
    (gd : GeoData) (env : Option String) (ip : String) (st : St) :
    (g.latencyMs > 2000 → getGeolocation g = .error .timeout)
    ∧ (g.outcome = .response stat stx (some gd) → g.latencyMs ≤ 2000 →
        ((stat < 200 ∨ 299 < stat) →
          getGeolocation g = .error (.httpError stat stx))
        ∧ (200 ≤ stat → stat ≤ 299 → gd.status = "fail" →
            getGeolocation g
              = .error (.apiFailure (jsOr gd.message "Geolocation lookup failed")))
        ∧ (200 ≤ stat → stat ≤ 299 → gd.status ≠ "fail" →
            getGeolocation g = .ok gd))
    ∧ (g.outcome = .response stat stx (some gd) →
        getGeolocation g = .ok gd
        ∨ getGeolocation g = .error .timeout
        ∨ getGeolocation g = .error (.httpError stat stx)
        ∨ getGeolocation g
            = .error (.apiFailure (jsOr gd.message "Geolocation lookup failed")))
    ∧ (geoMiss env g ip st).2.clock - st.clock ≤ 2000 := by
  refine ⟨getGeolocation_timeout g, ?_, ?_, ?_⟩
  · intro ho hl
    have hnl : ¬ g.latencyMs > 2000 := by omega
    refine ⟨?_, ?_, ?_⟩
    · intro hbad
      unfold getGeolocation
      rw [ho]
      simp [hnl, hbad]
    · intro h2 h3 hf
      have hok : ¬ (stat < 200 ∨ 299 < stat) := by omega
      unfold getGeolocation
      rw [ho]
      simp [hnl, hok, hf]
    · intro h2 h3 hf
      exact getGeolocation_success g stat stx gd (by omega) ho h2 h3 hf
  · intro ho
    by_cases hl : g.latencyMs > 2000
    · exact .inr (.inl (getGeolocation_timeout g hl))
    · by_cases hst : stat < 200 ∨ 299 < stat
      · refine .inr (.inr (.inl ?_))
        unfold getGeolocation
        rw [ho]
        simp [hl, hst]
      · by_cases hf : gd.status = "fail"
        · refine .inr (.inr (.inr ?_))
          unfold getGeolocation
          rw [ho]
          simp [hl, hst, hf]
        · exact .inl (getGeolocation_success g stat stx gd (by omega) ho
            (by omega) (by omega) hf)
  · rw [geoMiss_clock]
    simp

/-- C5 witness: at concrete behaviours, the four contract shapes are
realized: a 2500 ms backend times out, a 404 is an HTTP error, a 200
with a status-fail body is an application failure carrying the backend's
message, and a clean 200 returns the record; and the slow call charges
exactly 2000 ms to the caller. -/
theorem c5_geolocation_contract_witness :
    getGeolocation geoSlow = .error .timeout
    ∧ getGeolocation geoHttp404 = .error (.httpError 404 "Not Found")
    ∧ getGeolocation geoApiFail = .error (.apiFailure "invalid query")
    ∧ getGeolocation geoOK = .ok gdOK
    ∧ (geoMiss none geoSlow "1.2.3.4" stReady).2.clock - stReady.clock ≤ 2000 := by
  refine ⟨?_, ?_, ?_, ?_, ?_⟩
  · exact (c5_geolocation_contract geoSlow 200 "OK" gdOK none "1.2.3.4"
      stReady).1 (by decide)
  · exact ((c5_geolocation_contract geoHttp404 404 "Not Found" gdOK none
      "1.2.3.4" stReady).2.1 rfl (by decide)).1 (by decide)
  · have h := ((c5_geolocation_contract geoApiFail 200 "OK" gdFail none
      "1.2.3.4" stReady).2.1 rfl (by decide)).2.1 (by decide) (by decide) rfl
    simpa using h
  · exact ((c5_geolocation_contract geoOK 200 "OK" gdOK none "1.2.3.4"
      stReady).2.1 rfl (by decide)).2.2 (by decide) (by decide) (by decide)
  · exact (c5_geolocation_contract geoSlow 200 "OK" gdOK none "1.2.3.4"
      stReady).2.2.2

/-- C6: a present-but-undeserializable cached value is treated exactly as
a cache miss, in both namespaces: the resolver is invoked (its call
counter increments), enrichment completes with the resolver's value, and
on success the valid value is written back over the malformed entry. -/
theorem c6_malformed_cache_is_miss (env : Option String) (d : DnsBehavior)
    (g : GeoBehavior) (ip : String) (st : St) (rawD rawG : String)
    (h : String) (t : List String) (gd : GeoData)
    (hr : st.redis.ready = true) (hge : st.redis.getErr = false)
    (hse : st.redis.setErr = false)
    (hmd : redisGetVal st.redis ("dns:" ++ ip) = some (.malformed rawD))
    (hmg : redisGetVal st.redis ("geo:" ++ ip) = some (.malformed rawG))
    (ha : d.answer = .ok (h :: t)) (hh : h ≠ "")
    (hgeo : getGeolocation g = .ok gd) :
    ((reverseDnsWithCache env d ip st).1 = .ok (some (.vstr h))
      ∧ (reverseDnsWithCache env d ip st).2.dnsResolverCalls
          = st.dnsResolverCalls + 1
      ∧ redisGetVal (reverseDnsWithCache env d ip st).2.redis ("dns:" ++ ip)
          = some (.jstr h))
    ∧ ((getGeolocationWithCache env g ip st).1 = .ok (some (.vgeo gd))
      ∧ (getGeolocationWithCache env g ip st).2.geoResolverCalls
          = st.geoResolverCalls + 1
      ∧ redisGetVal (getGeolocationWithCache env g ip st).2.redis ("geo:" ++ ip)
          = some (.jgeo gd)) := by
  have hvd : cacheView st.redis ("dns:" ++ ip) = none := by
    unfold cacheView cacheParsedAt
    rw [hmd]
    simp [jsonParse]
  have hvg : cacheView st.redis ("geo:" ++ ip) = none := by
    unfold cacheView cacheParsedAt
    rw [hmg]
    simp [jsonParse]
  have e1 : reverseDnsWithCache env d ip st = dnsMiss env d ip st := by
    rw [reverseDnsWithCache_eq, hvd]
  have e2 : getGeolocationWithCache env g ip st = geoMiss env g ip st := by
    rw [getGeolocationWithCache_eq, hvg]
  rw [e1, e2, dnsMiss_success env d ip st h t ha hh hr hse,
    geoMiss_success env g ip st gd hgeo hr hse]
  exact ⟨⟨rfl, rfl, redisGetVal_mk_cons _ _ _ _ _ _ _⟩,
    ⟨rfl, rfl, redisGetVal_mk_cons _ _ _ _ _ _ _⟩⟩

/-- C6 witness: with working cache entries "not json" under both keys,
both lookups invoke their resolver once, succeed, and write the parsed
values back. -/
theorem c6_malformed_cache_is_miss_witness :
    (reverseDnsWithCache none dnsOK "1.2.3.4" stMal).1
      = .ok (some (.vstr "host.example"))
    ∧ (reverseDnsWithCache none dnsOK "1.2.3.4" stMal).2.dnsResolverCalls = 1
    ∧ (getGeolocationWithCache none geoOK "1.2.3.4" stMal).1
      = .ok (some (.vgeo gdOK))
    ∧ (getGeolocationWithCache none geoOK "1.2.3.4" stMal).2.geoResolverCalls = 1
    ∧ redisGetVal (getGeolocationWithCache none geoOK "1.2.3.4" stMal).2.redis
        ("geo:" ++ "1.2.3.4") = some (.jgeo gdOK) := by
  have h := c6_malformed_cache_is_miss none dnsOK geoOK "1.2.3.4" stMal
    "not json" "also not json" "host.example" [] gdOK rfl rfl rfl
    (by decide) (by decide) rfl (by decide) (by decide)
  exact ⟨h.1.1, h.1.2.1, h.2.1, h.2.2.1, h.2.2.2⟩

lemma getGeolocationWithCache_fst_eq (env : Option String) (g : GeoBehavior)
    (ip : String) (s : St) :
    (getGeolocationWithCache env g ip s).1 =
      match cacheView s.redis ("geo:" ++ ip) with
      | some v => .ok (some v)
      | none =>
        match getGeolocation g with
        | .error e => .error e
        | .ok gd => .ok (some (.vgeo gd)) := by
  rw [getGeolocationWithCache_eq]
  cases hv : cacheView s.redis ("geo:" ++ ip) with
  | some v => rfl
  | none => simp [geoMiss_fst_eq]

/-- The DNS phase never disturbs what the cache can serve for the geo
key: a hit leaves the store untouched, and the miss path writes only
under the DNS key and preserves the client flags. -/
lemma reverseDnsWithCache_geoView (env : Option String) (d : DnsBehavior)
    (ip : String) (st : St) :
    cacheView (reverseDnsWithCache env d ip st).2.redis ("geo:" ++ ip)
      = cacheView st.redis ("geo:" ++ ip) := by
  rw [reverseDnsWithCache_eq]
  cases hv : cacheView st.redis ("dns:" ++ ip) with
  | some v => rfl
  | none =>
    unfold cacheView
    rw [(dnsMiss_flags env d ip st).1, (dnsMiss_flags env d ip st).2.1,
      cacheParsedAt_eq_of_getVal _ _ _ (dnsMiss_getVal_other env d ip st _
        (Ne.symm (dnsKey_ne_geoKey ip ip)))]

/-- C7: the two enrichment streams fail fully independently, in both
directions: the geolocation behaviour never influences the DNS result
field, and the DNS behaviour (success or failure alike) never influences
the geolocation result field; a geolocation backend exceeding the
2000 ms deadline (with nothing servable from the geo cache) leaves only
the geo field absent; whenever the DNS chain succeeds the DNS field is
populated with its value; and when the DNS chain fails while the
geolocation chain succeeds, the result has the DNS field absent and the
geo field still populated — the request completes in every case. -/
theorem c7_failure_independence (w : World) (d2 : DnsBehavior)
    (g2 : GeoBehavior) (ip : String) (st : St) (v : JsVal) :
    ((enrichCore w ip st).1.reverseLookup
      = (enrichCore { w with geo := g2 } ip st).1.reverseLookup)
    ∧ ((enrichCore w ip st).1.geolocation
      = (enrichCore { w with dns := d2 } ip st).1.geolocation)
    ∧ (w.geo.latencyMs > 2000 →
        cacheView (reverseDnsWithCache w.env w.dns ip st).2.redis
          ("geo:" ++ ip) = none →
        (enrichCore w ip st).1.geolocation = none)
    ∧ ((reverseDnsWithCache w.env w.dns ip st).1 = .ok (some v) →
        (enrichCore w ip st).1.reverseLookup = some v)
    ∧ (∀ e, (reverseDnsWithCache w.env w.dns ip st).1 = .error e →
        (getGeolocationWithCache w.env w.geo ip
          (reverseDnsWithCache w.env w.dns ip st).2).1 = .ok (some v) →
        (enrichCore w ip st).1.reverseLookup = none
        ∧ (enrichCore w ip st).1.geolocation = some v) := by
  refine ⟨by simp [enrichCore], ?_, ?_, ?_, ?_⟩
  · show (enrichCore w ip st).1.geolocation
      = (enrichCore { w with dns := d2 } ip st).1.geolocation
    simp only [enrichCore]
    rw [getGeolocationWithCache_fst_eq, getGeolocationWithCache_fst_eq,
      reverseDnsWithCache_geoView, reverseDnsWithCache_geoView]
  · intro hl hv
    have e : getGeolocationWithCache w.env w.geo ip
        (reverseDnsWithCache w.env w.dns ip st).2
        = geoMiss w.env w.geo ip (reverseDnsWithCache w.env w.dns ip st).2 := by
      rw [getGeolocationWithCache_eq, hv]
    simp [enrichCore, e,
      geoMiss_error w.env w.geo ip _ .timeout (getGeolocation_timeout w.geo hl)]
  · intro hd
    simp [enrichCore, hd]
  · intro e hd hg
    exact ⟨by simp [enrichCore, hd], by simp [enrichCore, hg]⟩

/-- World with a rejecting DNS backend and a healthy geolocation backend. -/
def wDnsFail : World := ⟨none, dnsBad, geoOK⟩

/-- C7 witness: with a healthy DNS backend and a 2500 ms geolocation
backend over an empty working cache, the result has the DNS field
populated and the geo field absent; conversely, with a rejecting DNS
backend and a healthy geolocation backend, the result has the DNS field
absent and the geo field still populated. -/
theorem c7_failure_independence_witness :
    (enrichCore wMix "1.2.3.4" stReady).1.geolocation = none
    ∧ (enrichCore wMix "1.2.3.4" stReady).1.reverseLookup
        = some (.vstr "host.example")
    ∧ (enrichCore wDnsFail "1.2.3.4" stReady).1.reverseLookup = none
    ∧ (enrichCore wDnsFail "1.2.3.4" stReady).1.geolocation
        = some (.vgeo gdOK) := by
  have h1 := c7_failure_independence wMix dnsOK geoOK "1.2.3.4" stReady
    (.vstr "host.example")
  have h2 := c7_failure_independence wDnsFail dnsOK geoOK "1.2.3.4" stReady
    (.vgeo gdOK)
  refine ⟨h1.2.2.1 (by decide) (by decide), h1.2.2.2.1 (by decide), ?_, ?_⟩
  · exact (h2.2.2.2.2 "ENOTFOUND" (by decide) (by decide)).1
  · exact (h2.2.2.2.2 "ENOTFOUND" (by decide) (by decide)).2

/-- C8: cache-aside idempotence: with a fully working cache whose entries
do not expire and resolvers that succeed (DNS with a non-empty first
hostname, geolocation with a clean record), running the enrichment twice
yields identical reverse-name and geolocation values — both present —
and the second run performs zero additional resolver calls of either
kind. -/
theorem c8_cache_aside_idempotence (w : World) (ip : String) (st : St)
    (h : String) (t : List String) (gd : GeoData)
    (hr : st.redis.ready = true) (hge : st.redis.getErr = false)
    (hse : st.redis.setErr = false)
    (ha : w.dns.answer = .ok (h :: t)) (hh : h ≠ "")
    (hgeo : getGeolocation w.geo = .ok gd) :
    ∃ out1 st1 out2 st2,
      enrichCore w ip st = (out1, st1)
      ∧ enrichCore w ip st1 = (out2, st2)
      ∧ out2.reverseLookup = out1.reverseLookup
      ∧ out2.geolocation = out1.geolocation
      ∧ out1.reverseLookup.isSome = true
      ∧ out1.geolocation.isSome = true
      ∧ st2.dnsResolverCalls = st1.dnsResolverCalls
      ∧ st2.geoResolverCalls = st1.geoResolverCalls := by
  obtain ⟨v1, s1, he1, hr1, hg1, hs1, hc1, hpres1, hgc1⟩ :=
    reverseDnsWithCache_post w.env w.dns ip st h t hr hge hse ha hh
  obtain ⟨v2, s2, he2, hr2, hg2, hs2, hc2, hpres2, hdc2⟩ :=
    getGeolocationWithCache_post w.env w.geo ip s1 gd hr1 hg1 hs1 hgeo
  have hc1' : cacheParsedAt s2.redis ("dns:" ++ ip) = some v1 :=
    (cacheParsedAt_eq_of_getVal _ _ _
      (hpres2 _ (dnsKey_ne_geoKey ip ip))).trans hc1
  have he3 : reverseDnsWithCache w.env w.dns ip s2 = (.ok (some v1), s2) :=
    reverseDnsWithCache_hit w.env w.dns ip s2 v1 hr2 hg2 hc1'
  have he4 : getGeolocationWithCache w.env w.geo ip s2 = (.ok (some v2), s2) :=
    getGeolocationWithCache_hit w.env w.geo ip s2 v2 hr2 hg2 hc2
  have hcall1 : enrichCore w ip st =
      ({ reverseLookup := some v1, geolocation := some v2,
         dnsLookupTime := some (s1.clock - st.clock),
         geoLookupTime := some (s2.clock - s1.clock) }, s2) := by
    simp [enrichCore, he1, he2]
  have hcall2 : enrichCore w ip s2 =
      ({ reverseLookup := some v1, geolocation := some v2,
         dnsLookupTime := some 0, geoLookupTime := some 0 }, s2) := by
    simp [enrichCore, he3, he4]
  exact ⟨_, _, _, _, hcall1, hcall2, rfl, rfl, rfl, rfl, rfl, rfl⟩

/-- C8 witness: in the healthy concrete world over an empty working
cache, the second enrichment reproduces both values and leaves both
resolver call counters unchanged. -/
theorem c8_cache_aside_idempotence_witness :
    (enrichCore wOK "1.2.3.4" (enrichCore wOK "1.2.3.4" stReady).2).1.reverseLookup
      = (enrichCore wOK "1.2.3.4" stReady).1.reverseLookup
    ∧ (enrichCore wOK "1.2.3.4" (enrichCore wOK "1.2.3.4" stReady).2).1.geolocation
      = (enrichCore wOK "1.2.3.4" stReady).1.geolocation
    ∧ (enrichCore wOK "1.2.3.4" (enrichCore wOK "1.2.3.4" stReady).2).2.dnsResolverCalls
      = (enrichCore wOK "1.2.3.4" stReady).2.dnsResolverCalls
    ∧ (enrichCore wOK "1.2.3.4" (enrichCore wOK "1.2.3.4" stReady).2).2.geoResolverCalls
      = (enrichCore wOK "1.2.3.4" stReady).2.geoResolverCalls := by
  obtain ⟨out1, st1, out2, st2, e1, e2, hrl, hgl, _, _, hcd, hcg⟩ :=
    c8_cache_aside_idempotence wOK "1.2.3.4" stReady "host.example" [] gdOK
      rfl rfl rfl rfl (by decide) (by decide)
  simp only [e1]
  simp only [show (out1, st1).2 = st1 from rfl, e2]
  exact ⟨hrl, hgl, hcd, hcg⟩

/-- C1 (amended): within one request the two enrichment phases run
sequentially, not concurrently: the geolocation phase starts exactly
when the DNS phase ends, and the total enrichment latency added to the
request is the SUM of the measured DNS and geolocation lookup times. -/
theorem c1_enrichment_sequential (w : World) (ip : String) (st : St) :
    (reverseDnsWithCache w.env w.dns ip st).2.clock
      = st.clock + ((enrichCore w ip st).1.dnsLookupTime.getD 0)
    ∧ (enrichCore w ip st).2.clock - st.clock
      = ((enrichCore w ip st).1.dnsLookupTime.getD 0)
        + ((enrichCore w ip st).1.geoLookupTime.getD 0) := by
  obtain ⟨dt1, h1⟩ := reverseDnsWithCache_clock w.env w.dns ip st
  obtain ⟨dt2, h2⟩ := getGeolocationWithCache_clock w.env w.geo ip
    (reverseDnsWithCache w.env w.dns ip st).2
  simp only [enrichCore, h2, h1, Option.getD_some]
  constructor <;> omega

/-- C1 counterexample: in the healthy concrete world (empty working
cache, DNS answering in 5 ms, geolocation in 7 ms) the total enrichment
latency is 12 ms, the sum of the two measured lookup times, strictly
exceeding their maximum 7 ms; and the geolocation phase starts at clock
5, after the DNS phase, not together with it at clock 0 — so the claimed
concurrent execution bounded by max(dnsTime, geoTime) is false of the
code. -/
theorem c1_counterexample :
    (enrichCore wOK "1.2.3.4" stReady).2.clock - stReady.clock = 12
    ∧ max ((enrichCore wOK "1.2.3.4" stReady).1.dnsLookupTime.getD 0)
        ((enrichCore wOK "1.2.3.4" stReady).1.geoLookupTime.getD 0) = 7
    ∧ ¬ ((enrichCore wOK "1.2.3.4" stReady).2.clock - stReady.clock
        ≤ max ((enrichCore wOK "1.2.3.4" stReady).1.dnsLookupTime.getD 0)
            ((enrichCore wOK "1.2.3.4" stReady).1.geoLookupTime.getD 0))
    ∧ (reverseDnsWithCache wOK.env wOK.dns "1.2.3.4" stReady).2.clock
        ≠ stReady.clock := by
  exact ⟨by decide, by decide, by decide, by decide⟩

end HostDetail
